import Mathlib

/-!
Shallow embedding of the valuation-analysis program in src/placement.py.
Numeric values are modelled by rationals; the Python float domain produced
by the ratio computations is modelled by the type FV, whose constructor
FV.inf stands for the IEEE infinity value that the code returns as its
result for a non-computable ratio. Scores are natural numbers and the
weighted final score is a rational.
-/

namespace Placement

/-- Model of the Python float values flowing out of the ratio computations:
either a finite rational or the infinity value produced by the expression
written in the source as a call to float with argument inf. -/
inductive FV where
  | fin (q : ℚ)
  | inf
deriving DecidableEq, Repr

/-- Comparison of a float value against a finite threshold, with the IEEE
semantics the Python code relies on: infinity is not less than any finite
value, so every strict comparison on it is false. -/
def fvLt (x : FV) (c : ℚ) : Bool :=
  match x with
  | .fin q => decide (q < c)
  | .inf => false

/-- Projection of the float domain onto an optional rational: the infinity
sentinel maps to none, finite values to some. Used to compare the code with
the specification text, which describes undefined ratios as a tagged
non-numeric result. -/
def fvToOption (x : FV) : Option ℚ :=
  match x with
  | .fin q => some q
  | .inf => none

/-- Embedding of the dataclass DonneesEntreprise (src/placement.py lines
12-26): the typed record of company financials. -/
structure DonneesEntreprise where
  nom : String
  symbole : String
  prix_action : ℚ
  benefice_par_action : ℚ
  valeur_comptable_par_action : ℚ
  revenus_actuels : ℚ
  revenus_annee_precedente : ℚ
  dette_totale : ℚ
  capitaux_propres : ℚ
  croissance_benefices_prevue : ℚ
  secteur : String
  capitalisation_boursiere : ℚ
deriving DecidableEq, Repr

/-- Sector benchmark record: the per-sector dictionaries stored in
references_secteur (src/placement.py lines 283-291). -/
structure References where
  pe_moyen : ℚ
  pb_moyen : ℚ
  croissance_moyenne : ℚ
deriving DecidableEq, Repr

/-- The sector benchmark table references_secteur of AnalyseurSousEvaluation
(src/placement.py lines 283-291). -/
def references_secteur : List (String × References) :=
  [("technologie", ⟨25, 4.5, 15⟩),
   ("finance", ⟨12, 1.2, 8⟩),
   ("sante", ⟨18, 3.0, 12⟩),
   ("industrie", ⟨16, 2.5, 6⟩),
   ("consommation", ⟨20, 3.5, 10⟩),
   ("energie", ⟨14, 1.8, 5⟩),
   ("defaut", ⟨18, 2.8, 10⟩)]

/-- Model of the Python str.lower method on the ASCII sector tags. -/
def minuscule (s : String) : String :=
  String.mk (s.data.map Char.toLower)

/-- Model of the Python str.upper method on the ASCII sector names. -/
def majuscule (s : String) : String :=
  String.mk (s.data.map Char.toUpper)

/-- obtenir_references (src/placement.py lines 340-345): lowercase the
sector tag, look it up, fall back to the defaut entry. -/
def obtenir_references (secteur : String) : References :=
  (references_secteur.lookup (minuscule secteur)).getD ⟨18, 2.8, 10⟩

/-- calculer_ratio_pe (src/placement.py lines 293-300): price over EPS,
returning the float infinity when EPS is non-positive. -/
def calculer_ratio_pe (donnees : DonneesEntreprise) : FV :=
  if donnees.benefice_par_action ≤ 0 then .inf
  else .fin (donnees.prix_action / donnees.benefice_par_action)

/-- calculer_ratio_pb (src/placement.py lines 302-309): price over book
value per share, returning the float infinity when book value is
non-positive. -/
def calculer_ratio_pb (donnees : DonneesEntreprise) : FV :=
  if donnees.valeur_comptable_par_action ≤ 0 then .inf
  else .fin (donnees.prix_action / donnees.valeur_comptable_par_action)

/-- calculer_ratio_peg (src/placement.py lines 311-320): P/E over projected
growth, infinity when P/E is infinite or growth is non-positive. -/
def calculer_ratio_peg (donnees : DonneesEntreprise) : FV :=
  match calculer_ratio_pe donnees with
  | .inf => .inf
  | .fin pe_ratio =>
      if donnees.croissance_benefices_prevue ≤ 0 then .inf
      else .fin (pe_ratio / donnees.croissance_benefices_prevue)

/-- calculer_croissance_revenus (src/placement.py lines 322-329): revenue
growth in percent, 0 when the prior-year revenue is non-positive. -/
def calculer_croissance_revenus (donnees : DonneesEntreprise) : ℚ :=
  if donnees.revenus_annee_precedente ≤ 0 then 0
  else (donnees.revenus_actuels - donnees.revenus_annee_precedente) /
        donnees.revenus_annee_precedente * 100

/-- calculer_ratio_endettement (src/placement.py lines 331-338): total debt
over equity, infinity when equity is non-positive. -/
def calculer_ratio_endettement (donnees : DonneesEntreprise) : FV :=
  if donnees.capitaux_propres ≤ 0 then .inf
  else .fin (donnees.dette_totale / donnees.capitaux_propres)

/-- evaluer_ratio_pe (src/placement.py lines 347-366): score of the P/E
ratio against the sector benchmark. Only the integer score is modelled;
the returned explanation string is presentation text. -/
def evaluer_ratio_pe (pe_ratio : FV) (references : References) : ℕ :=
  match pe_ratio with
  | .inf => 0
  | .fin q =>
      if q < references.pe_moyen * 0.7 then 90
      else if q < references.pe_moyen * 0.85 then 70
      else if q < references.pe_moyen * 1.15 then 50
      else if q < references.pe_moyen * 1.5 then 30
      else 10

/-- evaluer_ratio_pb (src/placement.py lines 368-381): score of the P/B
ratio against the sector benchmark. Note that this ladder has no branch for
the infinity value; an infinite P/B fails every strict comparison and falls
into the else band. -/
def evaluer_ratio_pb (pb_ratio : FV) (references : References) : ℕ :=
  if fvLt pb_ratio (references.pb_moyen * 0.6) then 85
  else if fvLt pb_ratio (references.pb_moyen * 0.8) then 65
  else if fvLt pb_ratio (references.pb_moyen * 1.2) then 50
  else 25

/-- evaluer_ratio_peg (src/placement.py lines 383-398): score of the PEG
ratio against absolute thresholds. -/
def evaluer_ratio_peg (peg_ratio : FV) : ℕ :=
  match peg_ratio with
  | .inf => 20
  | .fin q =>
      if q < 0.5 then 95
      else if q < 1.0 then 80
      else if q < 1.5 then 50
      else if q < 2.0 then 30
      else 10

/-- evaluer_croissance (src/placement.py lines 400-413): score of the
revenue growth against the sector average. -/
def evaluer_croissance (croissance_revenus : ℚ) (references : References) : ℕ :=
  if croissance_revenus > references.croissance_moyenne * 1.5 then 80
  else if croissance_revenus > references.croissance_moyenne then 65
  else if croissance_revenus > 0 then 45
  else 20

/-- evaluer_endettement (src/placement.py lines 415-428): score of the
debt-to-equity ratio against absolute thresholds. -/
def evaluer_endettement (ratio_endettement : FV) : ℕ :=
  match ratio_endettement with
  | .inf => 0
  | .fin q =>
      if q < 0.3 then 80
      else if q < 0.6 then 60
      else if q < 1.0 then 40
      else 20

/-- Weight of the P/E score (src/placement.py line 457). -/
def poids_pe : ℚ := 0.25

/-- Weight of the P/B score (src/placement.py line 458). -/
def poids_pb : ℚ := 0.20

/-- Weight of the PEG score (src/placement.py line 459). -/
def poids_peg : ℚ := 0.25

/-- Weight of the growth score (src/placement.py line 460). -/
def poids_croissance : ℚ := 0.20

/-- Weight of the leverage score (src/placement.py line 461). -/
def poids_endettement : ℚ := 0.10

/-- The weighted final score computed in analyser_entreprise
(src/placement.py lines 464-470). -/
def score_final_pondere (score_pe score_pb score_peg score_croissance
    score_endettement : ℕ) : ℚ :=
  (score_pe : ℚ) * poids_pe +
  (score_pb : ℚ) * poids_pb +
  (score_peg : ℚ) * poids_peg +
  (score_croissance : ℚ) * poids_croissance +
  (score_endettement : ℚ) * poids_endettement

/-- The verdict ladder of analyser_entreprise (src/placement.py lines
473-487): conclusion and recommendation from the final score. -/
def determiner_conclusion (score_final : ℚ) : String × String :=
  if score_final ≥ 75 then ("FORTEMENT SOUS-ÉVALUÉE 🚀", "Achat fortement recommandé")
  else if score_final ≥ 60 then ("SOUS-ÉVALUÉE ✅", "Achat recommandé")
  else if score_final ≥ 40 then ("VALORISATION ÉQUITABLE ⚖️", "Tenir ou analyser davantage")
  else if score_final ≥ 25 then ("POSSIBLEMENT SURÉVALUÉE ⚠️", "Éviter ou vendre")
  else ("SURÉVALUÉE ❌", "Vente recommandée")

/-- The record returned by analyser_entreprise (src/placement.py lines
509-529), without the presentation strings of the per-metric
explanations. -/
structure ResultatAnalyse where
  entreprise : String
  secteur : String
  ratio_pe : FV
  ratio_pb : FV
  ratio_peg : FV
  croissance_revenus : ℚ
  ratio_endettement : FV
  score_pe : ℕ
  score_pb : ℕ
  score_peg : ℕ
  score_croissance : ℕ
  score_endettement : ℕ
  score_final : ℚ
  conclusion : String
  recommandation : String
deriving DecidableEq, Repr

/-- analyser_entreprise (src/placement.py lines 430-529): compute the five
ratios, the sector references, the five scores, the weighted final score
and the verdict. Printing is omitted; the returned record is modelled. -/
def analyser_entreprise (donnees : DonneesEntreprise) : ResultatAnalyse :=
  let pe_ratio := calculer_ratio_pe donnees
  let pb_ratio := calculer_ratio_pb donnees
  let peg_ratio := calculer_ratio_peg donnees
  let croissance_revenus := calculer_croissance_revenus donnees
  let ratio_endettement := calculer_ratio_endettement donnees
  let references := obtenir_references donnees.secteur
  let score_pe := evaluer_ratio_pe pe_ratio references
  let score_pb := evaluer_ratio_pb pb_ratio references
  let score_peg := evaluer_ratio_peg peg_ratio
  let score_croissance := evaluer_croissance croissance_revenus references
  let score_endettement := evaluer_endettement ratio_endettement
  let score_final := score_final_pondere score_pe score_pb score_peg
      score_croissance score_endettement
  let verdict := determiner_conclusion score_final
  { entreprise := donnees.nom
    secteur := donnees.secteur
    ratio_pe := pe_ratio
    ratio_pb := pb_ratio
    ratio_peg := peg_ratio
    croissance_revenus := croissance_revenus
    ratio_endettement := ratio_endettement
    score_pe := score_pe
    score_pb := score_pb
    score_peg := score_peg
    score_croissance := score_croissance
    score_endettement := score_endettement
    score_final := score_final
    conclusion := verdict.1
    recommandation := verdict.2 }

/-- Accumulate the value of a list of decimal digit characters. -/
def chiffres (cs : List Char) : ℕ :=
  cs.foldl (fun a c => 10 * a + (c.toNat - 48)) 0

/-- Value of a non-empty all-digit character list, none otherwise. -/
def chiffres_val (cs : List Char) : Option ℕ :=
  if cs ≠ [] ∧ cs.all (·.isDigit) then some (chiffres cs) else none

/-- Split a character list at the first occurrence of a separator; the
second component is none when the separator does not occur. -/
def scinde (sep : Char) : List Char → List Char × Option (List Char)
  | [] => ([], none)
  | c :: cs =>
    if c = sep then ([], some cs)
    else
      let r := scinde sep cs
      (c :: r.1, r.2)

/-- Digits of an unsigned decimal mantissa with an optional decimal point,
read as the pair of the digit value and the number of fractional digits;
none when it is not a well-formed mantissa with at least one digit. The
mantissa with digit value n and f fractional digits denotes n over ten to
the f. -/
def mantisse_brut (cs : List Char) : Option (ℕ × ℕ) :=
  let p := scinde '.' cs
  match p.2 with
  | none => (chiffres_val cs).map (fun n => (n, 0))
  | some frac =>
      if p.1 = [] ∧ frac = [] then none
      else if p.1.all (·.isDigit) ∧ frac.all (·.isDigit) then
        some (chiffres (p.1 ++ frac), frac.length)
      else none

/-- Signed mantissa: an optional leading sign before the mantissa. -/
def signe_mantisse_brut (cs : List Char) : Option (ℤ × ℕ) :=
  match cs with
  | '-' :: reste => (mantisse_brut reste).map (fun p => (-(p.1 : ℤ), p.2))
  | '+' :: reste => (mantisse_brut reste).map (fun p => ((p.1 : ℤ), p.2))
  | _ => (mantisse_brut cs).map (fun p => ((p.1 : ℤ), p.2))

/-- Signed integer exponent part. -/
def exposant_val (cs : List Char) : Option ℤ :=
  match cs with
  | '-' :: reste => (chiffres_val reste).map (fun n => -(n : ℤ))
  | '+' :: reste => (chiffres_val reste).map (fun n => (n : ℤ))
  | _ => (chiffres_val cs).map (fun n => (n : ℤ))

/-- Decomposition of a finite decimal float literal: signed mantissa digit
value, number of fractional digits, and exponent; none when the string is
not a well-formed literal. -/
def lire_brut (s : String) : Option (ℤ × ℕ × ℤ) :=
  let cs := s.toList.map (fun c => if c = 'E' then 'e' else c)
  let p := scinde 'e' cs
  match p.2 with
  | none => (signe_mantisse_brut p.1).map (fun m => (m.1, m.2, 0))
  | some ex =>
      match signe_mantisse_brut p.1, exposant_val ex with
      | some m, some e => some (m.1, m.2, e)
      | _, _ => none

/-- Model of the Python builtin float applied to a string, restricted to
finite decimal literals with optional sign, decimal point and exponent:
some value on a well-formed literal, none on any other string (on which
the builtin raises ValueError, caught by the caller). The special float
spellings inf and nan and embedded underscores or whitespace are outside
the model; the provider fields this is applied to are plain decimals. -/
def lire_flottant (s : String) : Option ℚ :=
  (lire_brut s).map (fun m => (m.1 : ℚ) / (10 : ℚ) ^ m.2.1 * (10 : ℚ) ^ m.2.2)

/-- convertir_valeur (src/placement.py lines 158-167): coerce a textual
numeric field to a float; the empty string and the literal strings None
and a single dash yield 0.0, and any parse failure is caught and also
yields 0.0. -/
def convertir_valeur (valeur_str : String) : ℚ :=
  if valeur_str = "" ∨ valeur_str = "None" ∨ valeur_str = "-" then 0
  else (lire_flottant valeur_str).getD 0

/-- The secteurs_mapping table of RecuperateurDonneesAPI (src/placement.py
lines 43-55). -/
def secteurs_mapping : List (String × String) :=
  [("TECHNOLOGY", "technologie"),
   ("FINANCIAL SERVICES", "finance"),
   ("HEALTHCARE", "sante"),
   ("INDUSTRIALS", "industrie"),
   ("CONSUMER DISCRETIONARY", "consommation"),
   ("CONSUMER STAPLES", "consommation"),
   ("ENERGY", "energie"),
   ("UTILITIES", "energie"),
   ("MATERIALS", "industrie"),
   ("REAL ESTATE", "finance"),
   ("COMMUNICATION SERVICES", "technologie")]

/-- detecter_secteur (src/placement.py lines 169-174): uppercase the
provider sector name and map it, defaulting to defaut. -/
def detecter_secteur (secteur_api : String) : String :=
  (secteurs_mapping.lookup (majuscule secteur_api)).getD "defaut"

/-- Model of a provider JSON object consumed by field name: a partial map
from field names to string values. -/
def Dict : Type := String → Option String

/-- Python dict.get with a default value. -/
def dget (d : Dict) (cle valeur_defaut : String) : String :=
  (d cle).getD valeur_defaut

/-- The empty provider object. -/
def dict_vide : Dict := fun _ => none

/-- The pure field-extraction part of recuperer_donnees_entreprise
(src/placement.py lines 207-269): build the DonneesEntreprise record from
the overview object and the optional annualReports lists of the income
statement and the balance sheet (none models an absent or malformed
response). Network access, pauses and printing are omitted. -/
def construire_donnees (nom_entreprise symbole : String) (apercu : Dict)
    (revenus_data : Option (List Dict)) (bilan_data : Option (List Dict)) :
    DonneesEntreprise :=
  let nom := dget apercu "Name" nom_entreprise
  let prix_moyen := convertir_valeur (dget apercu "50DayMovingAverage" "0")
  let prix_action :=
    if prix_moyen = 0 then convertir_valeur (dget apercu "PreviousClose" "100")
    else prix_moyen
  let benefice_par_action := convertir_valeur (dget apercu "EPS" "0")
  let valeur_comptable_par_action := convertir_valeur (dget apercu "BookValue" "0")
  let capitalisation_boursiere :=
    convertir_valeur (dget apercu "MarketCapitalization" "0") / 1000000
  let pe_ratio := convertir_valeur (dget apercu "PERatio" "0")
  let secteur := detecter_secteur (dget apercu "Sector" "")
  let peg_ratio := convertir_valeur (dget apercu "PEGRatio" "0")
  let croissance_benefices_prevue :=
    if 0 < peg_ratio ∧ 0 < pe_ratio then pe_ratio / peg_ratio else 10
  let revenus :=
    match revenus_data with
    | some rapports =>
        if 2 ≤ rapports.length then
          (convertir_valeur (dget (rapports.getD 0 dict_vide) "totalRevenue" "0") / 1000000,
           convertir_valeur (dget (rapports.getD 1 dict_vide) "totalRevenue" "0") / 1000000)
        else (0, 0)
    | none => (0, 0)
  let bilan :=
    match bilan_data with
    | some rapports =>
        if 1 ≤ rapports.length then
          let dernier_bilan := rapports.getD 0 dict_vide
          let dette_brute := convertir_valeur (dget dernier_bilan "totalDebt" "0") / 1000000
          let dette_totale :=
            if dette_brute = 0 then
              convertir_valeur (dget dernier_bilan "longTermDebt" "0") / 1000000
            else dette_brute
          (dette_totale,
           convertir_valeur (dget dernier_bilan "totalShareholderEquity" "0") / 1000000)
        else (0, 0)
    | none => (0, 0)
  { nom := nom
    symbole := symbole
    prix_action := prix_action
    benefice_par_action := benefice_par_action
    valeur_comptable_par_action := valeur_comptable_par_action
    revenus_actuels := revenus.1
    revenus_annee_precedente := revenus.2
    dette_totale := bilan.1
    capitaux_propres := bilan.2
    croissance_benefices_prevue := croissance_benefices_prevue
    secteur := secteur
    capitalisation_boursiere := capitalisation_boursiere }

/-- saisir_donnees_entreprise (src/placement.py lines 555-596): manual
entry builds the record verbatim from the entered values; only the sector
is lowercased. Input prompting is omitted; the entered values are
parameters. -/
def saisir_donnees_entreprise (nom symbole : String)
    (prix_action benefice_par_action valeur_comptable_par_action
     revenus_actuels revenus_annee_precedente dette_totale capitaux_propres
     croissance_benefices_prevue capitalisation_boursiere : ℚ)
    (secteur : String) : DonneesEntreprise :=
  { nom := nom
    symbole := symbole
    prix_action := prix_action
    benefice_par_action := benefice_par_action
    valeur_comptable_par_action := valeur_comptable_par_action
    revenus_actuels := revenus_actuels
    revenus_annee_precedente := revenus_annee_precedente
    dette_totale := dette_totale
    capitaux_propres := capitaux_propres
    croissance_benefices_prevue := croissance_benefices_prevue
    secteur := minuscule secteur
    capitalisation_boursiere := capitalisation_boursiere }

/-- The fictitious record entreprise_sous_evaluee built in exemple_analyse
(src/placement.py lines 643-656). -/
def entreprise_sous_evaluee : DonneesEntreprise :=
  { nom := "ValueCorp SA"
    symbole := "VCORP"
    prix_action := 25.0
    benefice_par_action := 3.50
    valeur_comptable_par_action := 18.0
    revenus_actuels := 1200
    revenus_annee_precedente := 1000
    dette_totale := 300
    capitaux_propres := 800
    croissance_benefices_prevue := 15.0
    secteur := "industrie"
    capitalisation_boursiere := 500 }

/-- Specification text of section 4.2, first bullet: P/E is price over
EPS, undefined when EPS is non-positive. Stated with a tagged optional
result as the spec prescribes. -/
def spec_ratio_pe (d : DonneesEntreprise) : Option ℚ :=
  if d.benefice_par_action ≤ 0 then none
  else some (d.prix_action / d.benefice_par_action)

/-- Specification text of section 4.2, second bullet: P/B is price over
book value per share, undefined when book value is non-positive. -/
def spec_ratio_pb (d : DonneesEntreprise) : Option ℚ :=
  if d.valeur_comptable_par_action ≤ 0 then none
  else some (d.prix_action / d.valeur_comptable_par_action)

/-- Specification text of section 4.2, third bullet: PEG is P/E over
projected growth, undefined when P/E is undefined or growth is
non-positive. -/
def spec_ratio_peg (d : DonneesEntreprise) : Option ℚ :=
  match spec_ratio_pe d with
  | none => none
  | some pe =>
      if d.croissance_benefices_prevue ≤ 0 then none
      else some (pe / d.croissance_benefices_prevue)

/-- Specification text of section 4.2, fourth bullet: revenue growth in
percent, 0 when the prior revenue is non-positive. -/
def spec_croissance_revenus (d : DonneesEntreprise) : ℚ :=
  if d.revenus_annee_precedente ≤ 0 then 0
  else (d.revenus_actuels - d.revenus_annee_precedente) /
        d.revenus_annee_precedente * 100

/-- Specification text of section 4.2, fifth bullet: debt over equity,
undefined when equity is non-positive. -/
def spec_ratio_endettement (d : DonneesEntreprise) : Option ℚ :=
  if d.capitaux_propres ≤ 0 then none
  else some (d.dette_totale / d.capitaux_propres)

/-- A record whose EPS and equity are zero, used to instantiate the
undefined-ratio theorems. -/
def donnees_nulles : DonneesEntreprise :=
  { nom := "Nulle"
    symbole := "NUL"
    prix_action := 0
    benefice_par_action := 0
    valeur_comptable_par_action := 0
    revenus_actuels := 0
    revenus_annee_precedente := 0
    dette_totale := 0
    capitaux_propres := 0
    croissance_benefices_prevue := 0
    secteur := ""
    capitalisation_boursiere := 0 }

/-- A provider overview object that reports a negative EPS and nothing
else. -/
def apercu_eps_negatif : Dict :=
  fun cle => if cle = "EPS" then some "-2.5" else none

/-! Helper lemmas: the projections of the record returned by
analyser_entreprise, by definitional unfolding. -/

theorem analyser_ratio_pb (d : DonneesEntreprise) :
    (analyser_entreprise d).ratio_pb = calculer_ratio_pb d := rfl

theorem analyser_score_pe (d : DonneesEntreprise) :
    (analyser_entreprise d).score_pe =
      evaluer_ratio_pe (calculer_ratio_pe d) (obtenir_references d.secteur) := rfl

theorem analyser_score_pb (d : DonneesEntreprise) :
    (analyser_entreprise d).score_pb =
      evaluer_ratio_pb (calculer_ratio_pb d) (obtenir_references d.secteur) := rfl

theorem analyser_score_peg (d : DonneesEntreprise) :
    (analyser_entreprise d).score_peg = evaluer_ratio_peg (calculer_ratio_peg d) := rfl

theorem analyser_score_croissance (d : DonneesEntreprise) :
    (analyser_entreprise d).score_croissance =
      evaluer_croissance (calculer_croissance_revenus d) (obtenir_references d.secteur) := rfl

theorem analyser_score_endettement (d : DonneesEntreprise) :
    (analyser_entreprise d).score_endettement =
      evaluer_endettement (calculer_ratio_endettement d) := rfl

theorem analyser_score_final (d : DonneesEntreprise) :
    (analyser_entreprise d).score_final =
      score_final_pondere (analyser_entreprise d).score_pe
        (analyser_entreprise d).score_pb (analyser_entreprise d).score_peg
        (analyser_entreprise d).score_croissance
        (analyser_entreprise d).score_endettement := rfl

theorem analyser_conclusion (d : DonneesEntreprise) :
    (analyser_entreprise d).conclusion =
      (determiner_conclusion (analyser_entreprise d).score_final).1 := rfl

/-- C1: the five ratio computations agree on every record with the
definitions of specification section 4.2: P/E is price over EPS and
undefined when EPS is non-positive; P/B is price over book value and
undefined when book value is non-positive; PEG is P/E over projected
growth and undefined when P/E is undefined or growth is non-positive;
revenue growth percent is the relative change times 100 and 0 when the
prior revenue is non-positive; debt over equity is undefined when equity
is non-positive. -/
theorem ratios_conformes_au_spec (d : DonneesEntreprise) :
    fvToOption (calculer_ratio_pe d) = spec_ratio_pe d ∧
    fvToOption (calculer_ratio_pb d) = spec_ratio_pb d ∧
    fvToOption (calculer_ratio_peg d) = spec_ratio_peg d ∧
    calculer_croissance_revenus d = spec_croissance_revenus d ∧
    fvToOption (calculer_ratio_endettement d) = spec_ratio_endettement d := by
  refine ⟨?_, ?_, ?_, rfl, ?_⟩
  · unfold calculer_ratio_pe spec_ratio_pe
    split_ifs <;> rfl
  · unfold calculer_ratio_pb spec_ratio_pb
    split_ifs <;> rfl
  · unfold calculer_ratio_peg spec_ratio_peg calculer_ratio_pe spec_ratio_pe
    by_cases h : d.benefice_par_action ≤ 0
    · simp [h, fvToOption]
    · by_cases hg : d.croissance_benefices_prevue ≤ 0
      · simp [h, hg, fvToOption]
      · simp [h, hg, fvToOption]
  · unfold calculer_ratio_endettement spec_ratio_endettement
    split_ifs <;> rfl

/-- C2: whenever EPS is non-positive the P/E score is 0 and the PEG score
is 20, whatever the other fields; whenever equity is non-positive the
leverage score is 0. -/
theorem scores_ratios_indefinis (d : DonneesEntreprise) :
    (d.benefice_par_action ≤ 0 →
      (analyser_entreprise d).score_pe = 0 ∧ (analyser_entreprise d).score_peg = 20) ∧
    (d.capitaux_propres ≤ 0 → (analyser_entreprise d).score_endettement = 0) := by
  constructor
  · intro h
    have hpe : calculer_ratio_pe d = .inf := by rw [calculer_ratio_pe, if_pos h]
    constructor
    · rw [analyser_score_pe, hpe]
      rfl
    · rw [analyser_score_peg]
      simp [calculer_ratio_peg, hpe, evaluer_ratio_peg]
  · intro h
    have he : calculer_ratio_endettement d = .inf := by
      rw [calculer_ratio_endettement, if_pos h]
    rw [analyser_score_endettement, he]
    rfl

/-- Witness for the undefined-ratio scores at a concrete record with zero
EPS and zero equity. -/
theorem scores_ratios_indefinis_temoin :
    (analyser_entreprise donnees_nulles).score_pe = 0 ∧
    (analyser_entreprise donnees_nulles).score_peg = 20 ∧
    (analyser_entreprise donnees_nulles).score_endettement = 0 := by
  obtain ⟨h1, h2⟩ := scores_ratios_indefinis donnees_nulles
  have hb : donnees_nulles.benefice_par_action ≤ 0 := by norm_num [donnees_nulles]
  have hc : donnees_nulles.capitaux_propres ≤ 0 := by norm_num [donnees_nulles]
  exact ⟨(h1 hb).1, (h1 hb).2, h2 hc⟩

/-- C10: a non-positive book value makes the P/B ratio the infinity
sentinel, and because the P/B ladder has no dedicated undefined branch the
score falls through every strict comparison into the else band, 25. -/
theorem score_pb_indefini (d : DonneesEntreprise)
    (h : d.valeur_comptable_par_action ≤ 0) :
    calculer_ratio_pb d = FV.inf ∧ (analyser_entreprise d).score_pb = 25 := by
  have hpb : calculer_ratio_pb d = .inf := by rw [calculer_ratio_pb, if_pos h]
  refine ⟨hpb, ?_⟩
  rw [analyser_score_pb, hpb]
  simp [evaluer_ratio_pb, fvLt]

/-- Witness for the undefined P/B score at a concrete record with zero
book value. -/
theorem score_pb_indefini_temoin :
    calculer_ratio_pb donnees_nulles = FV.inf ∧
    (analyser_entreprise donnees_nulles).score_pb = 25 :=
  score_pb_indefini donnees_nulles (by norm_num [donnees_nulles])

/-- C3: the final score is the weighted sum of the five per-metric scores
with weights 0.25, 0.20, 0.25, 0.20 and 0.10; the weights sum to 1; and
whenever the five scores lie within 0 and 100 the weighted sum lies within
0 and 100. -/
theorem score_final_pondere_correct :
    (∀ d : DonneesEntreprise, (analyser_entreprise d).score_final =
      ((analyser_entreprise d).score_pe : ℚ) * 0.25 +
      ((analyser_entreprise d).score_pb : ℚ) * 0.20 +
      ((analyser_entreprise d).score_peg : ℚ) * 0.25 +
      ((analyser_entreprise d).score_croissance : ℚ) * 0.20 +
      ((analyser_entreprise d).score_endettement : ℚ) * 0.10) ∧
    poids_pe + poids_pb + poids_peg + poids_croissance + poids_endettement = 1 ∧
    (∀ s1 s2 s3 s4 s5 : ℕ, s1 ≤ 100 → s2 ≤ 100 → s3 ≤ 100 → s4 ≤ 100 → s5 ≤ 100 →
      0 ≤ score_final_pondere s1 s2 s3 s4 s5 ∧
      score_final_pondere s1 s2 s3 s4 s5 ≤ 100) := by
  refine ⟨fun d => ?_, by norm_num [poids_pe, poids_pb, poids_peg,
    poids_croissance, poids_endettement], fun s1 s2 s3 s4 s5 h1 h2 h3 h4 h5 => ?_⟩
  · rw [analyser_score_final]
    rfl
  · have c1 : (s1 : ℚ) ≤ 100 := by exact_mod_cast h1
    have c2 : (s2 : ℚ) ≤ 100 := by exact_mod_cast h2
    have c3 : (s3 : ℚ) ≤ 100 := by exact_mod_cast h3
    have c4 : (s4 : ℚ) ≤ 100 := by exact_mod_cast h4
    have c5 : (s5 : ℚ) ≤ 100 := by exact_mod_cast h5
    have p1 : (0 : ℚ) ≤ s1 := by positivity
    have p2 : (0 : ℚ) ≤ s2 := by positivity
    have p3 : (0 : ℚ) ≤ s3 := by positivity
    have p4 : (0 : ℚ) ≤ s4 := by positivity
    have p5 : (0 : ℚ) ≤ s5 := by positivity
    unfold score_final_pondere poids_pe poids_pb poids_peg poids_croissance
      poids_endettement
    constructor <;> nlinarith

/-- Witness for the bounds of the weighted sum at the five scores all
equal to 100. -/
theorem score_final_pondere_correct_temoin :
    0 ≤ score_final_pondere 100 100 100 100 100 ∧
    score_final_pondere 100 100 100 100 100 ≤ 100 :=
  score_final_pondere_correct.2.2 100 100 100 100 100 (by norm_num)
    (by norm_num) (by norm_num) (by norm_num) (by norm_num)

/-- C4: the verdict ladder partitions the scores with inclusive lower
bounds at 75, 60, 40 and 25, and the eight boundary scores land in the
stated tiers. -/
theorem paliers_verdict :
    (∀ s : ℚ, 75 ≤ s → (determiner_conclusion s).1 = "FORTEMENT SOUS-ÉVALUÉE 🚀") ∧
    (∀ s : ℚ, 60 ≤ s → s < 75 → (determiner_conclusion s).1 = "SOUS-ÉVALUÉE ✅") ∧
    (∀ s : ℚ, 40 ≤ s → s < 60 → (determiner_conclusion s).1 = "VALORISATION ÉQUITABLE ⚖️") ∧
    (∀ s : ℚ, 25 ≤ s → s < 40 → (determiner_conclusion s).1 = "POSSIBLEMENT SURÉVALUÉE ⚠️") ∧
    (∀ s : ℚ, s < 25 → (determiner_conclusion s).1 = "SURÉVALUÉE ❌") ∧
    (determiner_conclusion 75).1 = "FORTEMENT SOUS-ÉVALUÉE 🚀" ∧
    (determiner_conclusion 74.9).1 = "SOUS-ÉVALUÉE ✅" ∧
    (determiner_conclusion 60).1 = "SOUS-ÉVALUÉE ✅" ∧
    (determiner_conclusion 59.9).1 = "VALORISATION ÉQUITABLE ⚖️" ∧
    (determiner_conclusion 40).1 = "VALORISATION ÉQUITABLE ⚖️" ∧
    (determiner_conclusion 39.9).1 = "POSSIBLEMENT SURÉVALUÉE ⚠️" ∧
    (determiner_conclusion 25).1 = "POSSIBLEMENT SURÉVALUÉE ⚠️" ∧
    (determiner_conclusion 24.9).1 = "SURÉVALUÉE ❌" := by
  refine ⟨fun s h => ?_, fun s h h75 => ?_, fun s h h60 => ?_, fun s h h40 => ?_,
    fun s h25 => ?_, ?_, ?_, ?_, ?_, ?_, ?_, ?_, ?_⟩
  · rw [determiner_conclusion, if_pos (by exact h)]
  · rw [determiner_conclusion, if_neg (by simp only [ge_iff_le, not_le]; linarith),
      if_pos (by exact h)]
  · rw [determiner_conclusion, if_neg (by simp only [ge_iff_le, not_le]; linarith),
      if_neg (by simp only [ge_iff_le, not_le]; linarith), if_pos (by exact h)]
  · rw [determiner_conclusion, if_neg (by simp only [ge_iff_le, not_le]; linarith),
      if_neg (by simp only [ge_iff_le, not_le]; linarith),
      if_neg (by simp only [ge_iff_le, not_le]; linarith), if_pos (by exact h)]
  · rw [determiner_conclusion, if_neg (by simp only [ge_iff_le, not_le]; linarith),
      if_neg (by simp only [ge_iff_le, not_le]; linarith),
      if_neg (by simp only [ge_iff_le, not_le]; linarith),
      if_neg (by simp only [ge_iff_le, not_le]; linarith)]
  · norm_num [determiner_conclusion]
  · norm_num [determiner_conclusion]
  · norm_num [determiner_conclusion]
  · norm_num [determiner_conclusion]
  · norm_num [determiner_conclusion]
  · norm_num [determiner_conclusion]
  · norm_num [determiner_conclusion]
  · norm_num [determiner_conclusion]

/-- Witness for the verdict ladder at the concrete score 80. -/
theorem paliers_verdict_temoin :
    (determiner_conclusion 80).1 = "FORTEMENT SOUS-ÉVALUÉE 🚀" :=
  paliers_verdict.1 80 (by norm_num)

/-- C5: a ratio exactly at a threshold falls into the lower band: at 0.70
times the sector P/E reference the P/E score is 70 and not 90; at 0.6
times the P/B reference the P/B score is 65 and not 85; a PEG of exactly
0.5 scores 80 and not 95; growth exactly 1.5 times the sector average
scores 65 and not 80; leverage exactly 0.3 scores 60 and not 80. -/
theorem comparaisons_strictes_aux_bornes :
    (∀ references : References, 0 < references.pe_moyen →
      evaluer_ratio_pe (.fin (references.pe_moyen * 0.7)) references = 70) ∧
    (∀ references : References, 0 < references.pb_moyen →
      evaluer_ratio_pb (.fin (references.pb_moyen * 0.6)) references = 65) ∧
    evaluer_ratio_peg (.fin 0.5) = 80 ∧
    (∀ references : References, 0 < references.croissance_moyenne →
      evaluer_croissance (references.croissance_moyenne * 1.5) references = 65) ∧
    evaluer_endettement (.fin 0.3) = 60 := by
  refine ⟨fun r h => ?_, fun r h => ?_, by norm_num [evaluer_ratio_peg],
    fun r h => ?_, by norm_num [evaluer_endettement]⟩
  · simp only [evaluer_ratio_pe]
    rw [if_neg (lt_irrefl _), if_pos (by nlinarith)]
  · simp only [evaluer_ratio_pb, fvLt, decide_eq_true_eq]
    rw [if_neg (lt_irrefl _), if_pos (by nlinarith)]
  · simp only [evaluer_croissance]
    rw [if_neg (lt_irrefl _), if_pos (by nlinarith)]

/-- Witness for the strict boundary comparisons at the industry
benchmark. -/
theorem comparaisons_strictes_aux_bornes_temoin :
    evaluer_ratio_pe
      (.fin ((⟨16, 2.5, 6⟩ : References).pe_moyen * 0.7)) ⟨16, 2.5, 6⟩ = 70 ∧
    evaluer_croissance
      ((⟨16, 2.5, 6⟩ : References).croissance_moyenne * 1.5) ⟨16, 2.5, 6⟩ = 65 :=
  ⟨comparaisons_strictes_aux_bornes.1 ⟨16, 2.5, 6⟩ (by norm_num),
   comparaisons_strictes_aux_bornes.2.2.2.1 ⟨16, 2.5, 6⟩ (by norm_num)⟩

/-! Helper lemmas: concrete evaluations of the reference lookup and the
textual coercion used by several claims. -/

theorem obtenir_references_industrie :
    obtenir_references "industrie" = ⟨16, 2.5, 6⟩ := by
  rw [obtenir_references, show minuscule "industrie" = "industrie" from by decide]
  rfl

theorem convertir_valeur_chaine_zero : convertir_valeur "0" = 0 := by
  rw [convertir_valeur, if_neg (by decide), lire_flottant,
    show lire_brut "0" = some (0, 0, 0) from by decide]
  norm_num

theorem convertir_valeur_chaine_cent : convertir_valeur "100" = 100 := by
  rw [convertir_valeur, if_neg (by decide), lire_flottant,
    show lire_brut "100" = some (100, 0, 0) from by decide]
  norm_num

theorem convertir_valeur_chaine_negative : convertir_valeur "-2.5" = -(5/2) := by
  rw [convertir_valeur, if_neg (by decide), lire_flottant,
    show lire_brut "-2.5" = some (-25, 1, 0) from by decide]
  norm_num

/-- C6: on the fictitious example record with price 25, EPS 3.5, book
value 18, revenues 1200 against 1000, debt 300, equity 800, growth 15 and
sector industrie, the ratios are P/E 50 over 7, P/B 25 over 18, revenue
growth 20 percent and debt over equity 3 over 8; the industry benchmark
P/E is 16, the P/E ratio is below 0.70 times 16 so the P/E score is 90,
and the final weighted score, 85.25, is at least 60. -/
theorem exemple_analyse_conforme :
    obtenir_references "industrie" = ⟨16, 2.5, 6⟩ ∧
    calculer_ratio_pe entreprise_sous_evaluee = .fin (50/7) ∧
    calculer_ratio_pb entreprise_sous_evaluee = .fin (25/18) ∧
    calculer_croissance_revenus entreprise_sous_evaluee = 20 ∧
    calculer_ratio_endettement entreprise_sous_evaluee = .fin (3/8) ∧
    (50 : ℚ) / 7 < 0.70 * 16 ∧
    (analyser_entreprise entreprise_sous_evaluee).score_pe = 90 ∧
    (analyser_entreprise entreprise_sous_evaluee).score_final = 85.25 ∧
    60 ≤ (analyser_entreprise entreprise_sous_evaluee).score_final := by
  have hr : obtenir_references entreprise_sous_evaluee.secteur = ⟨16, 2.5, 6⟩ := by
    rw [show entreprise_sous_evaluee.secteur = "industrie" from rfl,
      obtenir_references_industrie]
  have hpe : calculer_ratio_pe entreprise_sous_evaluee = .fin (50/7) := by
    norm_num [calculer_ratio_pe, entreprise_sous_evaluee]
  have hpb : calculer_ratio_pb entreprise_sous_evaluee = .fin (25/18) := by
    norm_num [calculer_ratio_pb, entreprise_sous_evaluee]
  have hpeg : calculer_ratio_peg entreprise_sous_evaluee = .fin (10/21) := by
    rw [calculer_ratio_peg, hpe]
    norm_num [entreprise_sous_evaluee]
  have hcr : calculer_croissance_revenus entreprise_sous_evaluee = 20 := by
    norm_num [calculer_croissance_revenus, entreprise_sous_evaluee]
  have hend : calculer_ratio_endettement entreprise_sous_evaluee = .fin (3/8) := by
    norm_num [calculer_ratio_endettement, entreprise_sous_evaluee]
  have hspe : (analyser_entreprise entreprise_sous_evaluee).score_pe = 90 := by
    rw [analyser_score_pe, hpe, hr]
    norm_num [evaluer_ratio_pe]
  have hspb : (analyser_entreprise entreprise_sous_evaluee).score_pb = 85 := by
    rw [analyser_score_pb, hpb, hr]
    norm_num [evaluer_ratio_pb, fvLt]
  have hspeg : (analyser_entreprise entreprise_sous_evaluee).score_peg = 95 := by
    rw [analyser_score_peg, hpeg]
    norm_num [evaluer_ratio_peg]
  have hscr : (analyser_entreprise entreprise_sous_evaluee).score_croissance = 80 := by
    rw [analyser_score_croissance, hcr, hr]
    norm_num [evaluer_croissance]
  have hsend : (analyser_entreprise entreprise_sous_evaluee).score_endettement = 60 := by
    rw [analyser_score_endettement, hend]
    norm_num [evaluer_endettement]
  have hfin : (analyser_entreprise entreprise_sous_evaluee).score_final = 85.25 := by
    rw [analyser_score_final, hspe, hspb, hspeg, hscr, hsend]
    norm_num [score_final_pondere, poids_pe, poids_pb, poids_peg,
      poids_croissance, poids_endettement]
  exact ⟨obtenir_references_industrie, hpe, hpb, hcr, hend, by norm_num, hspe,
    hfin, by rw [hfin]; norm_num⟩

/-- C7: the textual coercion is total and yields exactly 0 on the empty
string, the literal strings None and dash, and every string that is not a
well-formed decimal literal; on a well-formed literal it yields its
value. -/
theorem convertir_valeur_totale :
    convertir_valeur "" = 0 ∧
    convertir_valeur "None" = 0 ∧
    convertir_valeur "-" = 0 ∧
    (∀ s : String, lire_flottant s = none → convertir_valeur s = 0) ∧
    (∀ s : String, convertir_valeur s = 0 ∨
      ∃ q : ℚ, lire_flottant s = some q ∧ convertir_valeur s = q) := by
  refine ⟨by rw [convertir_valeur, if_pos (by decide)],
    by rw [convertir_valeur, if_pos (by decide)],
    by rw [convertir_valeur, if_pos (by decide)], fun s h => ?_, fun s => ?_⟩
  · rw [convertir_valeur]
    split_ifs with hs
    · rfl
    · rw [h]
      rfl
  · rw [convertir_valeur]
    split_ifs with hs
    · exact Or.inl rfl
    · cases hq : lire_flottant s with
      | none => exact Or.inl rfl
      | some q => exact Or.inr ⟨q, rfl, rfl⟩

/-- Witness for the coercion at the unparseable string abc. -/
theorem convertir_valeur_totale_temoin :
    convertir_valeur "abc" = 0 :=
  convertir_valeur_totale.2.2.2.1 "abc"
    (by rw [lire_flottant, show lire_brut "abc" = none from by decide]; rfl)

/-- C8 counterexample: the undefined P/B at a record with zero book value
is the numeric infinity value of the float domain, not a tagged optional
result: the ladder orders it with the numeric comparison fvLt, on which
every strict test is false, and scores it 25 through the else band. -/
theorem sentinelle_infinie_contre_exemple :
    calculer_ratio_pb donnees_nulles = FV.inf ∧
    fvToOption (calculer_ratio_pb donnees_nulles) = none ∧
    fvLt (calculer_ratio_pb donnees_nulles)
      ((⟨18, 2.8, 10⟩ : References).pb_moyen * 0.6) = false ∧
    evaluer_ratio_pb (calculer_ratio_pb donnees_nulles) ⟨18, 2.8, 10⟩ = 25 := by
  have h : calculer_ratio_pb donnees_nulles = .inf := by
    rw [calculer_ratio_pb, if_pos (by norm_num [donnees_nulles])]
  refine ⟨h, by rw [h]; rfl, by rw [h]; rfl, ?_⟩
  rw [h]
  simp [evaluer_ratio_pb, fvLt]

/-- C8 amended: each of the four division ratios signals its undefined
case in-band with the float infinity value, returned exactly when the
corresponding denominator condition fails; revenue growth signals its
degenerate case with 0 instead. -/
theorem sentinelle_infinie_amendee (d : DonneesEntreprise) :
    (calculer_ratio_pe d = FV.inf ↔ d.benefice_par_action ≤ 0) ∧
    (calculer_ratio_pb d = FV.inf ↔ d.valeur_comptable_par_action ≤ 0) ∧
    (calculer_ratio_peg d = FV.inf ↔
      d.benefice_par_action ≤ 0 ∨ d.croissance_benefices_prevue ≤ 0) ∧
    (calculer_ratio_endettement d = FV.inf ↔ d.capitaux_propres ≤ 0) := by
  refine ⟨?_, ?_, ?_, ?_⟩
  · rw [calculer_ratio_pe]
    split_ifs with h <;> simp [h]
  · rw [calculer_ratio_pb]
    split_ifs with h <;> simp [h]
  · by_cases h : d.benefice_par_action ≤ 0
    · simp [calculer_ratio_peg, calculer_ratio_pe, h]
    · by_cases hg : d.croissance_benefices_prevue ≤ 0
      · simp [calculer_ratio_peg, calculer_ratio_pe, h, hg]
      · simp [calculer_ratio_peg, calculer_ratio_pe, h, hg]
  · rw [calculer_ratio_endettement]
    split_ifs with h <;> simp [h]

/-- C9 counterexample: a provider overview reporting the EPS string -2.5
produces a record whose EPS field is negative; no non-negativity is
enforced on construction. -/
theorem champs_negatifs_contre_exemple :
    (construire_donnees "Exemple" "EX" apercu_eps_negatif none none).benefice_par_action
      = -(5/2) ∧
    (construire_donnees "Exemple" "EX" apercu_eps_negatif none none).benefice_par_action
      < 0 := by
  have hproj : (construire_donnees "Exemple" "EX" apercu_eps_negatif none
      none).benefice_par_action = convertir_valeur (dget apercu_eps_negatif "EPS" "0") :=
    rfl
  have hd : dget apercu_eps_negatif "EPS" "0" = "-2.5" := by decide
  constructor
  · rw [hproj, hd, convertir_valeur_chaine_negative]
  · rw [hproj, hd, convertir_valeur_chaine_negative]
    norm_num

/-- C9 amended: the constructed record carries the entered or parsed
values verbatim with no sign validation, and fields whose source data is
absent default to 0, with the documented fallbacks of 100 for the price
and 10 for the projected growth and defaut for the sector. -/
theorem construction_sans_validation :
    (∀ (nom symbole : String) (pa bpa vc ra rp dt cp cb capb : ℚ) (secteur : String),
      (saisir_donnees_entreprise nom symbole pa bpa vc ra rp dt cp cb capb
        secteur).prix_action = pa ∧
      (saisir_donnees_entreprise nom symbole pa bpa vc ra rp dt cp cb capb
        secteur).benefice_par_action = bpa ∧
      (saisir_donnees_entreprise nom symbole pa bpa vc ra rp dt cp cb capb
        secteur).dette_totale = dt ∧
      (saisir_donnees_entreprise nom symbole pa bpa vc ra rp dt cp cb capb
        secteur).capitaux_propres = cp) ∧
    (construire_donnees "N" "S" dict_vide none none).prix_action = 100 ∧
    (construire_donnees "N" "S" dict_vide none none).benefice_par_action = 0 ∧
    (construire_donnees "N" "S" dict_vide none none).valeur_comptable_par_action = 0 ∧
    (construire_donnees "N" "S" dict_vide none none).revenus_actuels = 0 ∧
    (construire_donnees "N" "S" dict_vide none none).revenus_annee_precedente = 0 ∧
    (construire_donnees "N" "S" dict_vide none none).dette_totale = 0 ∧
    (construire_donnees "N" "S" dict_vide none none).capitaux_propres = 0 ∧
    (construire_donnees "N" "S" dict_vide none none).croissance_benefices_prevue = 10 ∧
    (construire_donnees "N" "S" dict_vide none none).secteur = "defaut" ∧
    (construire_donnees "N" "S" dict_vide none none).capitalisation_boursiere = 0 := by
  refine ⟨fun nom symbole pa bpa vc ra rp dt cp cb capb secteur =>
    ⟨rfl, rfl, rfl, rfl⟩, ?_, ?_, ?_, rfl, rfl, rfl, rfl, ?_, by decide, ?_⟩
  · rw [show (construire_donnees "N" "S" dict_vide none none).prix_action =
      (if convertir_valeur "0" = 0 then convertir_valeur "100"
        else convertir_valeur "0") from rfl,
      convertir_valeur_chaine_zero, if_pos rfl, convertir_valeur_chaine_cent]
  · rw [show (construire_donnees "N" "S" dict_vide none none).benefice_par_action =
      convertir_valeur "0" from rfl, convertir_valeur_chaine_zero]
  · rw [show (construire_donnees "N" "S" dict_vide none
      none).valeur_comptable_par_action = convertir_valeur "0" from rfl,
      convertir_valeur_chaine_zero]
  · rw [show (construire_donnees "N" "S" dict_vide none
      none).croissance_benefices_prevue =
      (if 0 < convertir_valeur "0" ∧ 0 < convertir_valeur "0" then
        convertir_valeur "0" / convertir_valeur "0" else 10) from rfl,
      convertir_valeur_chaine_zero, if_neg (by norm_num)]
  · rw [show (construire_donnees "N" "S" dict_vide none none).capitalisation_boursiere =
      convertir_valeur "0" / 1000000 from rfl, convertir_valeur_chaine_zero]
    norm_num

end Placement
